import Mathlib

/-!
Verification of the Dhan market-data adapter (`broker/dhan/api/data.py`).

The Python module is a stateless call-and-transform adapter.  We embed it
shallowly:

* calendar dates (the module only ever handles `YYYY-MM-DD` strings with no
  time component) are modelled as integer day numbers counted from
  1970-01-01, which was a Thursday, so `weekday d = (d + 3) % 7` reproduces
  Python's `datetime.weekday()` (Monday = 0 .. Sunday = 6);
* datetimes (needed only by `_convert_date_to_utc`, which anchors a date at
  15:30 and subtracts the fixed 5:30 offset) are modelled as integer minutes
  since the epoch, `day * 1440 + minute-of-day`;
* the two `while` loops of `_adjust_dates` and the `while` loop of
  `_get_intraday_chunks` are modelled as fuelled structural recursions with
  a fuel that strictly dominates the number of iterations of the source
  loop (a weekend is at most 2 consecutive days, and the chunk loop advances
  `start` by at least one day per iteration);
* the HTTP transport is modelled by an oracle argument: a function from the
  request actually built by the code to the broker's reply, where a reply is
  either the parsed body or the `status == "failed"` envelope that
  `get_api_response` turns into a raised error message.  Raised exceptions
  are modelled by `Except String`;
* the external collaborators excluded by the module (token lookup, the
  `map_exchange_type` mapper, the `BROKER_API_KEY` environment variable) are
  extra function/value parameters;
* numeric OHLCV values are modelled as integers: no claim under
  consideration depends on floating-point rounding, only on which fields are
  produced and how rows are ordered;
* `get_history` is modelled together with its observable trace: it returns
  the list of broker requests it issued alongside its result, so that
  claims about "no request is sent to the broker" are statable.

Python string operations that the control flow depends on (`in`,
`str.lower()`) are re-implemented structurally over the character list of a
`String` so that they evaluate inside the kernel.
-/

namespace Dhan

/-- Helper for `charsContain`: does the second list occur at the head of the
first?  Models a character-by-character anchored match. -/
def charsStartWith : List Char → List Char → Bool
  | _, [] => true
  | [], _ :: _ => false
  | a :: as, b :: bs => a == b && charsStartWith as bs

/-- Does `pat` occur as a contiguous sublist of `s`?  Models Python's
`pat in s` on strings, structurally so it kernel-evaluates. -/
def charsContain : List Char → List Char → Bool
  | s, pat => charsStartWith s pat ||
    match s with
    | [] => false
    | _ :: rest => charsContain rest pat

/-- Python's `pat in s` substring test on strings. -/
def strContains (s pat : String) : Bool := charsContain s.data pat.data

/-- Python's `str.lower()`, implemented over the character list so it
kernel-evaluates (the library `String.toLower` does not reduce). -/
def lowerStr (s : String) : String := ⟨s.data.map Char.toLower⟩

/-- A single-quote character as a string, used to spell the quotes that the
source embeds in its error messages. -/
def squote : String := String.singleton (Char.ofNat 39)

/-- Python `datetime.weekday()` on a day number counted from 1970-01-01
(a Thursday): Monday = 0 .. Sunday = 6. -/
def weekday (d : Int) : Int := (d + 3) % 7

/-- Source `_is_trading_day`: the date is a weekday (0-4 are Mon..Fri). -/
def is_trading_day (d : Int) : Bool := weekday d < 5

/-- Fuelled form of the first `while` loop of `_adjust_dates`: while the
start date falls on a weekend, move it one day forward.  The source loop
runs at most 2 iterations (a weekend is 2 days), so any fuel of at least 2
computes the loop's result; `adjust_dates` passes 7. -/
def adjust_start_go : Nat → Int → Int
  | 0, d => d
  | fuel + 1, d => if 5 ≤ weekday d then adjust_start_go fuel (d + 1) else d

/-- Fuelled form of the second `while` loop of `_adjust_dates`: while the
end date falls on a weekend, move it one day back. -/
def adjust_end_go : Nat → Int → Int
  | 0, d => d
  | fuel + 1, d => if 5 ≤ weekday d then adjust_end_go fuel (d - 1) else d

/-- Source `_adjust_dates`: move a weekend start forward to the next Monday
and a weekend end back to the previous Friday. -/
def adjust_dates (start_date end_date : Int) : Int × Int :=
  (adjust_start_go 7 start_date, adjust_end_go 7 end_date)

/-- Calendar date (day number) of a datetime given in minutes since the
epoch: Python extracts the date by flooring, and for the minute values the
source produces this is integer division by 1440 (= 24 * 60). -/
def dateOfMinutes (m : Int) : Int := m / 1440

/-- The datetime (in minutes) built by `_convert_date_to_utc`: anchor the
date at market close 15:30 IST, then subtract the fixed IST offset 5:30. -/
def convert_date_to_utc_minutes (d : Int) : Int :=
  d * 1440 + (15 * 60 + 30) - (5 * 60 + 30)

/-- Source `_convert_date_to_utc`, returning the UTC calendar date. -/
def convert_date_to_utc (d : Int) : Int :=
  dateOfMinutes (convert_date_to_utc_minutes d)

/-- Source `_convert_timestamp_to_ist`: add the fixed 5:30 offset (in
seconds) to a broker epoch timestamp. -/
def convert_timestamp_to_ist (ts : Int) : Int := ts + (5 * 60 + 30) * 60

/-- Fuelled form of the `while start < end` loop of `_get_intraday_chunks`.
Each iteration advances `start` by at least one day, so fuel
`(stop - start).toNat` (what `get_intraday_chunks` passes) computes the
loop's result. -/
def get_intraday_chunks_go : Nat → Int → Int → List (Int × Int)
  | 0, _, _ => []
  | fuel + 1, start, stop =>
    if start < stop then
      let chunk_end := min (start + 5) stop
      (start, chunk_end) :: get_intraday_chunks_go fuel chunk_end stop
    else []

/-- Source `_get_intraday_chunks`: split a date range into consecutive
chunks of at most 5 days. -/
def get_intraday_chunks (start_date end_date : Int) : List (Int × Int) :=
  get_intraday_chunks_go (end_date - start_date).toNat start_date end_date

theorem adjust_start_go_succ (fuel : Nat) (d : Int) :
    adjust_start_go (fuel + 1) d =
      if 5 ≤ weekday d then adjust_start_go fuel (d + 1) else d := rfl

theorem adjust_end_go_succ (fuel : Nat) (d : Int) :
    adjust_end_go (fuel + 1) d =
      if 5 ≤ weekday d then adjust_end_go fuel (d - 1) else d := rfl

theorem weekday_lt (d : Int) : 0 ≤ weekday d ∧ weekday d < 7 := by
  unfold weekday; omega

/-- Closed form of the start-adjustment loop: Saturday moves 2 days forward,
Sunday 1 day forward, weekdays stay. -/
theorem adjust_start_eq (d : Int) :
    adjust_start_go 7 d =
      if weekday d = 5 then d + 2 else if weekday d = 6 then d + 1 else d := by
  have h1 : adjust_start_go 7 d =
      if 5 ≤ weekday d then adjust_start_go 6 (d + 1) else d := rfl
  have h2 : adjust_start_go 6 (d + 1) =
      if 5 ≤ weekday (d + 1) then adjust_start_go 5 (d + 1 + 1) else d + 1 := rfl
  have h3 : adjust_start_go 5 (d + 1 + 1) =
      if 5 ≤ weekday (d + 1 + 1) then adjust_start_go 4 (d + 1 + 1 + 1) else d + 1 + 1 := rfl
  rw [h1, h2, h3]
  unfold weekday
  split_ifs <;> omega

/-- Closed form of the end-adjustment loop: Saturday moves 1 day back,
Sunday 2 days back, weekdays stay. -/
theorem adjust_end_eq (d : Int) :
    adjust_end_go 7 d =
      if weekday d = 5 then d - 1 else if weekday d = 6 then d - 2 else d := by
  have h1 : adjust_end_go 7 d =
      if 5 ≤ weekday d then adjust_end_go 6 (d - 1) else d := rfl
  have h2 : adjust_end_go 6 (d - 1) =
      if 5 ≤ weekday (d - 1) then adjust_end_go 5 (d - 1 - 1) else d - 1 := rfl
  have h3 : adjust_end_go 5 (d - 1 - 1) =
      if 5 ≤ weekday (d - 1 - 1) then adjust_end_go 4 (d - 1 - 1 - 1) else d - 1 - 1 := rfl
  rw [h1, h2, h3]
  unfold weekday
  split_ifs <;> omega

/-- The adjusted start date always falls on a weekday. -/
theorem adjust_start_trading (d : Int) : is_trading_day (adjust_start_go 7 d) = true := by
  rw [adjust_start_eq d]
  unfold is_trading_day weekday
  split_ifs <;> simp <;> omega

/-- The adjusted end date always falls on a weekday. -/
theorem adjust_end_trading (d : Int) : is_trading_day (adjust_end_go 7 d) = true := by
  rw [adjust_end_eq d]
  unfold is_trading_day weekday
  split_ifs <;> simp <;> omega

/-- The broker's reply to one HTTP request, as seen after JSON parsing: either
the `status == "failed"` envelope (whose `data` dict is modelled by its first
key/value pair, `none` when the dict is empty) or a parsed body. -/
inductive BrokerReply (α : Type) where
  | failed (errorData : Option (String × String))
  | ok (body : α)

/-- Source `error_mapping` inside `get_api_response`: known Dhan error codes
mapped to human-readable messages. -/
def error_mapping : List (String × String) :=
  [("806", "Data APIs not subscribed. Please subscribe to Dhan" ++ squote ++
      "s market data service."),
   ("810", "Authentication failed: Invalid client ID"),
   ("401", "Invalid or expired access token"),
   ("820", "Market data subscription required"),
   ("821", "Market data subscription required")]

/-- The message of the exception raised by `get_api_response` on a failure
envelope: the mapped text for a known code, a generic fallback otherwise. -/
def dhanErrorMsg (errorData : Option (String × String)) : String :=
  match List.lookup ((errorData.map Prod.fst).getD "unknown") error_mapping with
  | some mapped => mapped
  | none =>
    "Dhan API Error " ++ (errorData.map Prod.fst).getD "unknown" ++ ": " ++
      (errorData.map Prod.snd).getD "Unknown error"

/-- Message of the exception raised when `BROKER_API_KEY` is absent. -/
def clientIdMsg : String := "Could not extract client ID from auth token"

/-- Source `get_api_response`, with the HTTP transport already applied: the
`client_id` parameter is the `BROKER_API_KEY` environment variable (`none`
models absent/empty, which raises before any request), and `reply` is the
broker's parsed response for the request that was sent. -/
def get_api_response (client_id : Option String) (reply : BrokerReply α) : Except String α :=
  match client_id with
  | none => Except.error clientIdMsg
  | some _ =>
    match reply with
    | BrokerReply.failed errorData => Except.error (dhanErrorMsg errorData)
    | BrokerReply.ok body => Except.ok body

/-- One normalized candle row, with numeric values modelled as integers. -/
structure Candle where
  timestamp : Int
  open_ : Int
  high : Int
  low : Int
  close : Int
  volume : Int
deriving DecidableEq

/-- Parsed body of a charts endpoint response: the parallel arrays the source
reads with `response.get(key, [])`.  A missing key is an empty list. -/
structure ChartResponse where
  timestamp : List Int
  open_ : List Int
  high : List Int
  low : List Int
  close : List Int
  volume : List Int

/-- Python's `v if v else 0` coercion on a numeric value: falsy (zero) becomes
zero, anything else is kept.  On integers this is the identity, written out to
mirror the source expression. -/
def falsyToZero (v : Int) : Int := if v = 0 then 0 else v

/-- The response-processing loop shared by both branches of `get_history`:
zip the parallel arrays into candle rows, converting each timestamp to IST.
Indexing `opens[i]` etc. raises `IndexError` when a parallel array is shorter
than `timestamp`; that is modelled by the length guard. -/
def processChart (r : ChartResponse) : Except String (List Candle) :=
  if r.open_.length < r.timestamp.length || r.high.length < r.timestamp.length
      || r.low.length < r.timestamp.length || r.close.length < r.timestamp.length
      || r.volume.length < r.timestamp.length then
    Except.error "list index out of range"
  else
    Except.ok ((List.range r.timestamp.length).map (fun i =>
      { timestamp := convert_timestamp_to_ist (r.timestamp.getD i 0)
        open_ := falsyToZero (r.open_.getD i 0)
        high := falsyToZero (r.high.getD i 0)
        low := falsyToZero (r.low.getD i 0)
        close := falsyToZero (r.close.getD i 0)
        volume := falsyToZero (r.volume.getD i 0) }))

/-- The column list of the returned DataFrame. -/
def historyColumns : List String :=
  ["timestamp", "open", "high", "low", "close", "volume"]

/-- The tabular result of `get_history`: a DataFrame is modelled by its
column list and its rows.  An empty frame still carries the declared
columns. -/
structure Series where
  columns : List String
  rows : List Candle
deriving DecidableEq

/-- Sort key of `df.sort_values('timestamp')`. -/
def candle_le (a b : Candle) : Prop := a.timestamp ≤ b.timestamp

instance : DecidableRel candle_le :=
  fun a b => inferInstanceAs (Decidable (a.timestamp ≤ b.timestamp))

instance : IsTotal Candle candle_le := ⟨fun a b => Int.le_total a.timestamp b.timestamp⟩

instance : IsTrans Candle candle_le := ⟨fun _ _ _ h h2 => le_trans h h2⟩

/-- Sorting step of line 322 (`df.sort_values('timestamp')`).  pandas'
default quicksort is unstable, so any sort by timestamp is a faithful model;
we use insertion sort. -/
def sortCandles (l : List Candle) : List Candle := l.insertionSort candle_le

/-- Deduplication step of line 322 (`drop_duplicates(subset=['timestamp'])`,
default `keep='first'`): walk the sorted rows, keeping a row only when its
timestamp has not been seen before. -/
def dedupByTimestamp : List Int → List Candle → List Candle
  | _, [] => []
  | seen, c :: rest =>
    if seen.contains c.timestamp then dedupByTimestamp seen rest
    else c :: dedupByTimestamp (c.timestamp :: seen) rest

/-- Lines 317-324: build the returned DataFrame from the merged candle list;
an empty list yields the empty frame with the declared columns, otherwise
sort by timestamp and drop duplicate timestamps keeping the first. -/
def toSeries (all_candles : List Candle) : Series :=
  if all_candles.isEmpty then { columns := historyColumns, rows := [] }
  else { columns := historyColumns, rows := dedupByTimestamp [] (sortCandles all_candles) }

/-- Source `timeframe_map` of `BrokerData.__init__`, in insertion order. -/
def timeframe_map : List (String × String) :=
  [("1m", "1"), ("5m", "5"), ("15m", "15"), ("25m", "25"), ("1h", "60"), ("D", "D")]

/-- The joined list of supported interval tokens, as interpolated into the
unsupported-interval error message. -/
def supported_intervals : String :=
  String.intercalate ", " (timeframe_map.map Prod.fst)

/-- Message of the unsupported-interval exception (line 186); the source
wraps the token in single quotes. -/
def unsupportedIntervalMsg (interval : String) : String :=
  "Unsupported interval " ++ squote ++ interval ++ squote ++
    ". Supported intervals are: " ++ supported_intervals

/-- Message of the missing-security-id exception (line 205). -/
def securityIdMsg (symbol exchange : String) : String :=
  "Could not find security ID for " ++ symbol ++ " on " ++ exchange

/-- The wrapper applied by the outer `except` of `get_history` (line 328). -/
def wrapHist (e : String) : String := "Error fetching historical data: " ++ e

/-- Source `exchange_map` of `get_history` (lines 208-213). -/
def exchange_map : List (String × String) :=
  [("NSE", "NSE_EQ"), ("BSE", "BSE_EQ"), ("NFO", "NSE_FNO"), ("MCX", "MCX_COMM")]

/-- Source `index_symbols` of `_get_instrument_type`. -/
def index_symbols : List String := ["NIFTY", "BANKNIFTY", "FINNIFTY", "MIDCPNIFTY"]

/-- Source `instrument_map` of `_get_instrument_type`. -/
def instrument_map : List (String × String) :=
  [("NSE", "EQUITY"), ("BSE", "EQUITY"), ("MCX", "FUTCOM")]

/-- Source `_get_instrument_type`. -/
def get_instrument_type (exchange symbol : String) : String :=
  if exchange == "NFO" then
    if index_symbols.any (fun ix => strContains symbol ix) then "FUTIDX" else "FUTSTK"
  else
    (List.lookup exchange instrument_map).getD "EQUITY"

/-- A request to one of the two charts endpoints, with the fields the source
puts in the JSON body (dates as day numbers, the `str()` coercion of the
security id elided). -/
structure ChartRequest where
  endpoint : String
  securityId : Int
  exchangeSegment : String
  instrument : String
  interval : Option String
  fromDate : Int
  toDate : Int
  expiryCode : Option Int
deriving DecidableEq

/-- The request body built by the daily branch (lines 226-237), including the
equity-only `expiryCode` quirk. -/
def daily_request (security_id : Int) (exchange_segment instrument_type : String)
    (utc_start_date utc_end_date : Int) : ChartRequest :=
  { endpoint := "/v2/charts/historical", securityId := security_id,
    exchangeSegment := exchange_segment, instrument := instrument_type,
    interval := none, fromDate := utc_start_date, toDate := utc_end_date,
    expiryCode := if instrument_type == "EQUITY" then some 0 else none }

/-- The request body built for one intraday chunk (lines 274-285): chunk end
is extended by one day before UTC conversion so the chunk end date is
inclusive. -/
def intraday_request (security_id : Int)
    (exchange_segment instrument_type resolution : String)
    (chunk : Int × Int) : ChartRequest :=
  { endpoint := "/v2/charts/intraday", securityId := security_id,
    exchangeSegment := exchange_segment, instrument := instrument_type,
    interval := some resolution, fromDate := convert_date_to_utc chunk.1,
    toDate := convert_date_to_utc (chunk.2 + 1), expiryCode := none }

/-- One iteration of the intraday chunk loop (lines 268-314), accumulating
the issued requests and the collected candles: a chunk whose both endpoints
are non-trading is skipped without a request; a chunk whose request or
response processing fails is logged and skipped (`except ... continue`). -/
def intraday_step (client_id : Option String)
    (oracle : ChartRequest → BrokerReply ChartResponse) (security_id : Int)
    (exchange_segment instrument_type resolution : String)
    (acc : List ChartRequest × List Candle) (chunk : Int × Int) :
    List ChartRequest × List Candle :=
  if !is_trading_day chunk.1 && !is_trading_day chunk.2 then acc
  else
    match get_api_response client_id
        (oracle (intraday_request security_id exchange_segment instrument_type resolution chunk)) with
    | Except.error _ =>
      (acc.1 ++ [intraday_request security_id exchange_segment instrument_type resolution chunk],
       acc.2)
    | Except.ok response =>
      match processChart response with
      | Except.error _ =>
        (acc.1 ++ [intraday_request security_id exchange_segment instrument_type resolution chunk],
         acc.2)
      | Except.ok candles =>
        (acc.1 ++ [intraday_request security_id exchange_segment instrument_type resolution chunk],
         acc.2 ++ candles)

/-- The daily branch of `get_history` (lines 224-262 and 316-324): one
request to the historical endpoint; any raised error is wrapped by the outer
`except`. -/
def run_daily (client_id : Option String)
    (oracle : ChartRequest → BrokerReply ChartResponse) (req : ChartRequest) :
    List ChartRequest × Except String Series :=
  match get_api_response client_id (oracle req) with
  | Except.error e => ([req], Except.error (wrapHist e))
  | Except.ok response =>
    match processChart response with
    | Except.error e => ([req], Except.error (wrapHist e))
    | Except.ok candles => ([req], Except.ok (toSeries candles))

/-- The intraday branch of `get_history` (lines 263-324): fold the chunk
loop, then build the DataFrame from whatever candles were collected. -/
def run_intraday (client_id : Option String)
    (oracle : ChartRequest → BrokerReply ChartResponse) (security_id : Int)
    (exchange_segment instrument_type resolution : String)
    (chunks : List (Int × Int)) : List ChartRequest × Except String Series :=
  ((chunks.foldl (intraday_step client_id oracle security_id exchange_segment
      instrument_type resolution) ([], [])).1,
   Except.ok (toSeries (chunks.foldl (intraday_step client_id oracle security_id
      exchange_segment instrument_type resolution) ([], [])).2))

/-- Source `BrokerData.get_history`, modelled together with the trace of the
broker requests it issues (first component).  `client_id` is the
`BROKER_API_KEY` environment variable, `get_token` is the external token
lookup (with `some 0` also treated as falsy, as `if not security_id` does),
and `oracle` maps each issued request to the broker's reply.  The source
computes the UTC dates right after adjusting (lines 191-195) and uses them
only inside the daily branch; being pure, the conversion is written at its
use sites here. -/
def get_history (client_id : Option String) (get_token : String → String → Option Int)
    (oracle : ChartRequest → BrokerReply ChartResponse)
    (symbol exchange interval : String) (start_date end_date : Int) :
    List ChartRequest × Except String Series :=
  match List.lookup interval timeframe_map with
  | none => ([], Except.error (wrapHist (unsupportedIntervalMsg interval)))
  | some resolution =>
    if !is_trading_day (adjust_dates start_date end_date).1
        && !is_trading_day (adjust_dates start_date end_date).2 then
      ([], Except.ok { columns := historyColumns, rows := [] })
    else
      match get_token symbol exchange with
      | none => ([], Except.error (wrapHist (securityIdMsg symbol exchange)))
      | some security_id =>
        if security_id = 0 then
          ([], Except.error (wrapHist (securityIdMsg symbol exchange)))
        else
          match List.lookup exchange exchange_map with
          | none => ([], Except.error (wrapHist ("Unsupported exchange: " ++ exchange)))
          | some exchange_segment =>
            if interval == "D" then
              run_daily client_id oracle
                (daily_request security_id exchange_segment
                  (get_instrument_type exchange symbol)
                  (convert_date_to_utc (adjust_dates start_date end_date).1)
                  (convert_date_to_utc ((adjust_dates start_date end_date).2 + 1)))
            else
              run_intraday client_id oracle security_id exchange_segment
                (get_instrument_type exchange symbol) resolution
                (get_intraday_chunks (adjust_dates start_date end_date).1
                  (adjust_dates start_date end_date).2)

/-- One price level of the broker's raw depth arrays, with the `.get`
defaults of lines 463-464 already applied. -/
structure DepthLevelRaw where
  price : Int
  quantity : Int
deriving DecidableEq

/-- The `depth` object of a quote payload: `buy` and `sell` level arrays
(missing arrays are empty, per `.get('buy', [])`). -/
structure RawDepth where
  buy : List DepthLevelRaw
  sell : List DepthLevelRaw
deriving DecidableEq

/-- The `ohlc` object of a quote payload, with `.get(_, 0)` defaults
applied. -/
structure OhlcRaw where
  open_ : Int
  high : Int
  low : Int
  close : Int
deriving DecidableEq

/-- The per-security quote payload `data[segment][securityId]`, with the
source's `.get` defaults applied; `depth := none` models an absent (falsy)
`depth` dict. -/
structure QuoteData where
  last_price : Int
  ohlc : OhlcRaw
  volume : Int
  last_quantity : Int
  oi : Int
  depth : Option RawDepth
deriving DecidableEq

/-- Normalized quote returned by `get_quotes`; `error` is the extra field
attached only on a swallowed subscription error. -/
structure Quote where
  ltp : Int
  open_ : Int
  high : Int
  low : Int
  volume : Int
  bid : Int
  ask : Int
  prev_close : Int
  error : Option String
deriving DecidableEq

/-- The all-zero quote returned when the broker has no data for the key
(lines 355-364). -/
def zeroQuote : Quote :=
  { ltp := 0, open_ := 0, high := 0, low := 0, volume := 0, bid := 0, ask := 0,
    prev_close := 0, error := none }

/-- The wrapper applied by the outer `except` of `get_quotes` (line 409). -/
def wrapQuotes (e : String) : String := "Error fetching quotes: " ++ e

/-- The subscription test of lines 392 and 498:
`"not subscribed" in str(e).lower()`. -/
def subscription_check (e : String) : Bool :=
  strContains (lowerStr e) "not subscribed"

/-- Lines 367-388: build the quote from the payload, deriving bid/ask from
the first buy/sell depth level when the depth dict is present and the
arrays are non-empty. -/
def quoteFromData (qd : QuoteData) : Quote :=
  let base : Quote :=
    { ltp := qd.last_price, open_ := qd.ohlc.open_, high := qd.ohlc.high,
      low := qd.ohlc.low, volume := qd.volume, bid := 0, ask := 0,
      prev_close := qd.ohlc.close, error := none }
  match qd.depth with
  | none => base
  | some d =>
    match d.buy, d.sell with
    | [], [] => base
    | [], o :: _ => { base with ask := o.price }
    | o :: _, [] => { base with bid := o.price }
    | o :: _, o2 :: _ => { base with bid := o.price, ask := o2.price }

/-- Source `BrokerData.get_quotes`, with the token/exchange-type resolution
(external collaborators) already applied: `reply` is the broker's reply to
the single quote request, whose `data[segment][securityId]` payload is
`none` when empty. -/
def get_quotes (client_id : Option String) (security_id : Int) (exchange_type : String)
    (reply : BrokerReply (Option QuoteData)) : Except String Quote :=
  match get_api_response client_id reply with
  | Except.error e =>
    if subscription_check e then Except.ok { zeroQuote with error := some e }
    else Except.error (wrapQuotes e)
  | Except.ok none => Except.ok zeroQuote
  | Except.ok (some qd) => Except.ok (quoteFromData qd)

/-- One normalized depth level returned by `get_depth`. -/
structure DepthLevel where
  price : Int
  quantity : Int
deriving DecidableEq

/-- Normalized depth returned by `get_depth`; `error` is attached only on a
swallowed subscription error. -/
structure Depth where
  bids : List DepthLevel
  asks : List DepthLevel
  ltp : Int
  ltq : Int
  volume : Int
  open_ : Int
  high : Int
  low : Int
  prev_close : Int
  oi : Int
  totalbuyqty : Int
  totalsellqty : Int
  error : Option String
deriving DecidableEq

/-- Five zero levels, as built by the list comprehensions of lines 437-438
and 501-502. -/
def zeroLevels : List DepthLevel := List.replicate 5 { price := 0, quantity := 0 }

/-- The all-zero depth returned when the broker has no data for the key. -/
def zeroDepth : Depth :=
  { bids := zeroLevels, asks := zeroLevels, ltp := 0, ltq := 0, volume := 0,
    open_ := 0, high := 0, low := 0, prev_close := 0, oi := 0,
    totalbuyqty := 0, totalsellqty := 0, error := none }

/-- The `for i in range(5)` padding loops of lines 460-478: take the level at
index `i` when the broker supplied one, a zero level otherwise. -/
def padLevels (orders : List DepthLevelRaw) : List DepthLevel :=
  (List.range 5).map (fun i =>
    match orders.get? i with
    | some o => { price := o.price, quantity := o.quantity }
    | none => { price := 0, quantity := 0 })

/-- The wrapper applied by the outer `except` of `get_depth` (line 519). -/
def wrapDepth (e : String) : String := "Error fetching market depth: " ++ e

/-- Lines 451-493: build the normalized depth from the payload, padding both
sides to exactly 5 levels and deriving the aggregate quantities as sums over
the padded arrays. -/
def depthFromData (qd : QuoteData) : Depth :=
  { bids := padLevels ((qd.depth.map RawDepth.buy).getD []),
    asks := padLevels ((qd.depth.map RawDepth.sell).getD []),
    ltp := qd.last_price, ltq := qd.last_quantity, volume := qd.volume,
    open_ := qd.ohlc.open_, high := qd.ohlc.high, low := qd.ohlc.low,
    prev_close := qd.ohlc.close, oi := qd.oi,
    totalbuyqty := ((padLevels ((qd.depth.map RawDepth.buy).getD [])).map
      DepthLevel.quantity).sum,
    totalsellqty := ((padLevels ((qd.depth.map RawDepth.sell).getD [])).map
      DepthLevel.quantity).sum,
    error := none }

/-- Source `BrokerData.get_depth`, with the external resolution applied as in
`get_quotes`. -/
def get_depth (client_id : Option String) (security_id : Int) (exchange_type : String)
    (reply : BrokerReply (Option QuoteData)) : Except String Depth :=
  match get_api_response client_id reply with
  | Except.error e =>
    if subscription_check e then Except.ok { zeroDepth with error := some e }
    else Except.error (wrapDepth e)
  | Except.ok none => Except.ok zeroDepth
  | Except.ok (some qd) => Except.ok (depthFromData qd)

theorem chunks_go_nil_of_eq (fuel : Nat) (e : Int) :
    get_intraday_chunks_go fuel e e = [] := by
  cases fuel with
  | zero => rfl
  | succ n => simp [get_intraday_chunks_go]

/-- Every chunk emitted by the loop is a non-degenerate sub-range of at most
5 days lying inside the bounds. -/
theorem chunks_go_mem : ∀ (fuel : Nat) (s e : Int) (p : Int × Int),
    p ∈ get_intraday_chunks_go fuel s e →
    s ≤ p.1 ∧ p.1 < p.2 ∧ p.2 - p.1 ≤ 5 ∧ p.2 ≤ e := by
  intro fuel
  induction fuel with
  | zero => intro s e p h; simp [get_intraday_chunks_go] at h
  | succ n ih =>
    intro s e p h
    simp only [get_intraday_chunks_go] at h
    by_cases hse : s < e
    · rw [if_pos hse] at h
      rcases List.mem_cons.mp h with rfl | h
      · refine ⟨le_refl _, ?_, ?_, ?_⟩ <;> simp <;> omega
      · have := ih (min (s + 5) e) e p h
        omega
    · rw [if_neg hse] at h
      simp at h

/-- The first chunk the loop emits starts at the loop's start and ends at
`min (start + 5) stop`, and the tail is the loop restarted there. -/
theorem chunks_go_head : ∀ (fuel : Nat) (s e : Int) (p : Int × Int)
    (rest : List (Int × Int)), get_intraday_chunks_go fuel s e = p :: rest →
    p = (s, min (s + 5) e) ∧ s < e ∧
      rest = get_intraday_chunks_go (fuel - 1) (min (s + 5) e) e := by
  intro fuel s e p rest h
  cases fuel with
  | zero => exact absurd h (by simp [get_intraday_chunks_go])
  | succ n =>
    simp only [get_intraday_chunks_go] at h
    by_cases hse : s < e
    · rw [if_pos hse] at h
      injection h with h1 h2
      exact ⟨h1.symm, hse, by simpa using h2.symm⟩
    · rw [if_neg hse] at h
      exact absurd h (by simp)

/-- Consecutive chunks share their boundary date. -/
theorem chunks_go_chain : ∀ (fuel : Nat) (s e : Int),
    List.Chain' (fun p q : Int × Int => p.2 = q.1) (get_intraday_chunks_go fuel s e) := by
  intro fuel
  induction fuel with
  | zero => intro s e; simp [get_intraday_chunks_go]
  | succ n ih =>
    intro s e
    simp only [get_intraday_chunks_go]
    by_cases hse : s < e
    · rw [if_pos hse]
      refine List.chain'_cons'.mpr ⟨?_, ih _ _⟩
      intro q hq
      rcases hh : get_intraday_chunks_go n (min (s + 5) e) e with _ | ⟨q2, tl⟩
      · rw [hh] at hq; simp at hq
      · rw [hh] at hq
        simp only [List.head?_cons, Option.mem_def, Option.some.injEq] at hq
        subst hq
        have := chunks_go_head n (min (s + 5) e) e q2 tl hh
        rw [this.1]
    · rw [if_neg hse]; exact List.chain'_nil

/-- Every chunk except possibly the last spans exactly 5 days. -/
theorem chunks_go_dropLast : ∀ (fuel : Nat) (s e : Int) (p : Int × Int),
    p ∈ (get_intraday_chunks_go fuel s e).dropLast → p.2 - p.1 = 5 := by
  intro fuel
  induction fuel with
  | zero => intro s e p h; simp [get_intraday_chunks_go] at h
  | succ n ih =>
    intro s e p h
    simp only [get_intraday_chunks_go] at h
    by_cases hse : s < e
    · rw [if_pos hse] at h
      rcases hh : get_intraday_chunks_go n (min (s + 5) e) e with _ | ⟨q, tl⟩
      · rw [hh] at h; simp at h
      · rw [hh, List.dropLast_cons₂] at h
        rcases List.mem_cons.mp h with rfl | h
        · have hq := chunks_go_head n (min (s + 5) e) e q tl hh
          have hqe : min (s + 5) e < e := by
            have hm := chunks_go_mem n (min (s + 5) e) e q (hh ▸ List.mem_cons_self q tl)
            rw [hq.1] at hm
            simp at hm
            omega
          simp
          omega
        · exact ih _ _ p (hh ▸ h)
    · rw [if_neg hse] at h
      simp at h

/-- With enough fuel (which `get_intraday_chunks` always supplies), the last
emitted chunk ends exactly at the range's end. -/
theorem chunks_go_last : ∀ (fuel : Nat) (s e : Int), s < e → (e - s).toNat ≤ fuel →
    ((get_intraday_chunks_go fuel s e).getLast?).map Prod.snd = some e := by
  intro fuel
  induction fuel with
  | zero => intro s e hse hf; omega
  | succ n ih =>
    intro s e hse hf
    simp only [get_intraday_chunks_go]
    rw [if_pos hse]
    by_cases hme : min (s + 5) e < e
    · have hlast := ih (min (s + 5) e) e hme (by omega)
      rcases hh : get_intraday_chunks_go n (min (s + 5) e) e with _ | ⟨q, tl⟩
      · rw [hh] at hlast; simp at hlast
      · rw [hh] at hlast
        rw [List.getLast?_cons_cons]
        exact hlast
    · have hmeq : min (s + 5) e = e := by omega
      rw [hmeq, chunks_go_nil_of_eq n e]
      simp

/-- The requests the chunk loop issues: one per chunk not skipped by the
both-ends-non-trading filter, in order, whatever the broker replies. -/
def chunk_request_trace (security_id : Int)
    (exchange_segment instrument_type resolution : String)
    (chunks : List (Int × Int)) : List ChartRequest :=
  (chunks.filter (fun c => is_trading_day c.1 || is_trading_day c.2)).map
    (intraday_request security_id exchange_segment instrument_type resolution)

theorem intraday_step_kept (client_id : Option String)
    (oracle : ChartRequest → BrokerReply ChartResponse) (security_id : Int)
    (exchange_segment instrument_type resolution : String)
    (acc : List ChartRequest × List Candle) (chunk : Int × Int)
    (hk : (is_trading_day chunk.1 || is_trading_day chunk.2) = true) :
    (intraday_step client_id oracle security_id exchange_segment instrument_type
        resolution acc chunk).1 =
      acc.1 ++ [intraday_request security_id exchange_segment instrument_type
        resolution chunk] := by
  unfold intraday_step
  have hs : (!is_trading_day chunk.1 && !is_trading_day chunk.2) = false := by
    cases h1 : is_trading_day chunk.1 <;> cases h2 : is_trading_day chunk.2 <;>
      simp_all
  rw [hs]
  simp only [Bool.false_eq_true, if_false]
  rcases hrep : get_api_response client_id (oracle (intraday_request security_id
      exchange_segment instrument_type resolution chunk)) with e | response <;>
    simp only [hrep]
  rcases hpc : processChart response with e | candles <;> simp only [hpc]

theorem intraday_step_skipped (client_id : Option String)
    (oracle : ChartRequest → BrokerReply ChartResponse) (security_id : Int)
    (exchange_segment instrument_type resolution : String)
    (acc : List ChartRequest × List Candle) (chunk : Int × Int)
    (hk : (is_trading_day chunk.1 || is_trading_day chunk.2) = false) :
    intraday_step client_id oracle security_id exchange_segment instrument_type
        resolution acc chunk = acc := by
  unfold intraday_step
  have hs : (!is_trading_day chunk.1 && !is_trading_day chunk.2) = true := by
    cases h1 : is_trading_day chunk.1 <;> cases h2 : is_trading_day chunk.2 <;>
      simp_all
  rw [hs]
  simp

/-- The trace of requests issued by the chunk loop does not depend on the
broker's replies: a failing chunk is skipped but every following chunk is
still requested. -/
theorem intraday_fold_trace (client_id : Option String)
    (oracle : ChartRequest → BrokerReply ChartResponse) (security_id : Int)
    (exchange_segment instrument_type resolution : String) :
    ∀ (chunks : List (Int × Int)) (acc : List ChartRequest × List Candle),
    (chunks.foldl (intraday_step client_id oracle security_id exchange_segment
        instrument_type resolution) acc).1 =
      acc.1 ++ chunk_request_trace security_id exchange_segment instrument_type
        resolution chunks := by
  intro chunks
  induction chunks with
  | nil => intro acc; simp [chunk_request_trace]
  | cons c cs ih =>
    intro acc
    rw [List.foldl_cons]
    cases hk : (is_trading_day c.1 || is_trading_day c.2) with
    | false =>
      rw [intraday_step_skipped _ _ _ _ _ _ _ _ hk, ih acc]
      unfold chunk_request_trace
      rw [List.filter_cons_of_neg (by simp [hk])]
    | true =>
      rw [ih]
      have h1 := intraday_step_kept client_id oracle security_id exchange_segment
        instrument_type resolution acc c hk
      rw [h1]
      unfold chunk_request_trace
      rw [List.filter_cons_of_pos (by simp [hk]), List.map_cons, List.append_assoc]
      rfl

theorem dedup_mem : ∀ (seen : List Int) (l : List Candle) (c : Candle),
    c ∈ dedupByTimestamp seen l → c ∈ l := by
  intro seen l
  induction l generalizing seen with
  | nil => intro c h; simp [dedupByTimestamp] at h
  | cons a rest ih =>
    intro c h
    simp only [dedupByTimestamp] at h
    by_cases hs : seen.contains a.timestamp
    · rw [if_pos hs] at h
      exact List.mem_cons_of_mem _ (ih _ _ h)
    · rw [if_neg hs] at h
      rcases List.mem_cons.mp h with rfl | h
      · exact List.mem_cons_self _ _
      · exact List.mem_cons_of_mem _ (ih _ _ h)

theorem dedup_not_seen : ∀ (seen : List Int) (l : List Candle) (c : Candle),
    c ∈ dedupByTimestamp seen l → seen.contains c.timestamp = false := by
  intro seen l
  induction l generalizing seen with
  | nil => intro c h; simp [dedupByTimestamp] at h
  | cons a rest ih =>
    intro c h
    simp only [dedupByTimestamp] at h
    by_cases hs : seen.contains a.timestamp
    · rw [if_pos hs] at h
      exact ih _ _ h
    · rw [if_neg hs] at h
      rcases List.mem_cons.mp h with rfl | h
      · simpa using hs
      · have h2 := ih _ _ h
        simp only [List.contains_cons, Bool.or_eq_false_iff] at h2
        exact h2.2

/-- Deduplicating a run of rows sorted by `timestamp ≤ timestamp` yields rows
strictly increasing in timestamp. -/
theorem dedup_pairwise : ∀ (seen : List Int) (l : List Candle),
    l.Pairwise candle_le →
    (dedupByTimestamp seen l).Pairwise (fun a b => a.timestamp < b.timestamp) := by
  intro seen l
  induction l generalizing seen with
  | nil => intro _; simp [dedupByTimestamp]
  | cons a rest ih =>
    intro hp
    rcases List.pairwise_cons.mp hp with ⟨ha, hrest⟩
    simp only [dedupByTimestamp]
    by_cases hs : seen.contains a.timestamp
    · rw [if_pos hs]
      exact ih _ hrest
    · rw [if_neg hs]
      refine List.Pairwise.cons ?_ (ih _ hrest)
      intro b hb
      have hle : a.timestamp ≤ b.timestamp := ha b (dedup_mem _ _ _ hb)
      have hns := dedup_not_seen _ _ _ hb
      simp only [List.contains_cons, Bool.or_eq_false_iff, beq_eq_false_iff_ne] at hns
      have : b.timestamp ≠ a.timestamp := hns.1
      omega

theorem toSeries_columns (cs : List Candle) : (toSeries cs).columns = historyColumns := by
  unfold toSeries
  split <;> rfl

/-- The rows of any built series are strictly ascending in timestamp, with no
duplicate timestamps. -/
theorem toSeries_sorted (cs : List Candle) :
    (toSeries cs).rows.Pairwise (fun a b => a.timestamp < b.timestamp) := by
  unfold toSeries
  split
  · simp
  · have hs : (sortCandles cs).Pairwise candle_le := List.sorted_insertionSort candle_le cs
    exact dedup_pairwise [] _ hs

/-- Every kept row comes from the merged candle list. -/
theorem toSeries_rows_subset (cs : List Candle) (c : Candle)
    (h : c ∈ (toSeries cs).rows) : c ∈ cs := by
  unfold toSeries at h
  split at h
  · simp at h
  · have h2 := dedup_mem _ _ _ h
    exact (List.perm_insertionSort candle_le cs).mem_iff.mp h2

/-- No timestamp is lost: every merged candle's timestamp is represented in
the kept rows. -/
theorem toSeries_rows_cover : ∀ (seen : List Int) (l : List Candle) (c : Candle),
    c ∈ l → seen.contains c.timestamp = false →
    ∃ r ∈ dedupByTimestamp seen l, r.timestamp = c.timestamp := by
  intro seen l
  induction l generalizing seen with
  | nil => intro c h; simp at h
  | cons a rest ih =>
    intro c hc hns
    simp only [dedupByTimestamp]
    by_cases hs : seen.contains a.timestamp
    · rw [if_pos hs]
      rcases List.mem_cons.mp hc with rfl | hc
      · rw [hns] at hs; exact absurd hs (by simp)
      · exact ih _ c hc hns
    · rw [if_neg hs]
      rcases List.mem_cons.mp hc with rfl | hc
      · exact ⟨c, List.mem_cons_self _ _, rfl⟩
      · by_cases hts : (a.timestamp :: seen).contains c.timestamp
        · refine ⟨a, List.mem_cons_self _ _, ?_⟩
          simp only [List.contains_cons, Bool.or_eq_true_iff, beq_iff_eq] at hts
          rcases hts with h1 | h1
          · exact h1.symm
          · rw [hns] at h1; exact absurd h1 (by simp)
        · have := ih (a.timestamp :: seen) c hc (by simpa using hts)
          rcases this with ⟨r, hr, hrt⟩
          exact ⟨r, List.mem_cons_of_mem _ hr, hrt⟩

/-- After `_adjust_dates`, both dates are weekdays, so the both-non-trading
guard of line 198 can never fire: it is dead code. -/
theorem adjust_guard_false (s e : Int) :
    (!is_trading_day (adjust_dates s e).1 && !is_trading_day (adjust_dates s e).2) = false := by
  show (!is_trading_day (adjust_start_go 7 s) && !is_trading_day (adjust_end_go 7 e)) = false
  rw [adjust_start_trading s, adjust_end_trading e]
  rfl

theorem run_daily_shape (client_id : Option String)
    (oracle : ChartRequest → BrokerReply ChartResponse) (req : ChartRequest)
    (ser : Series) (h : (run_daily client_id oracle req).2 = Except.ok ser) :
    ∃ cs, ser = toSeries cs := by
  unfold run_daily at h
  rcases hrep : get_api_response client_id (oracle req) with e | response <;>
    rw [hrep] at h
  · exact Except.noConfusion h
  · rcases hpc : processChart response with e | candles <;>
      simp only [hpc] at h
    · exact Except.noConfusion h
    · injection h with h2
      exact ⟨candles, h2.symm⟩

theorem run_intraday_shape (client_id : Option String)
    (oracle : ChartRequest → BrokerReply ChartResponse) (security_id : Int)
    (exchange_segment instrument_type resolution : String)
    (chunks : List (Int × Int)) (ser : Series)
    (h : (run_intraday client_id oracle security_id exchange_segment instrument_type
        resolution chunks).2 = Except.ok ser) :
    ∃ cs, ser = toSeries cs := by
  unfold run_intraday at h
  injection h with h2
  exact ⟨_, h2.symm⟩

/-- Whatever the external lookups and the broker return, any successful
`get_history` result is either the declared empty frame or a frame built by
the sort-and-deduplicate pipeline. -/
theorem get_history_ok_shape (client_id : Option String)
    (get_token : String → String → Option Int)
    (oracle : ChartRequest → BrokerReply ChartResponse)
    (symbol exchange interval : String) (start_date end_date : Int) (ser : Series)
    (h : (get_history client_id get_token oracle symbol exchange interval
        start_date end_date).2 = Except.ok ser) :
    ∃ cs, ser = toSeries cs := by
  unfold get_history at h
  split at h
  · exact Except.noConfusion h
  · split at h
    · injection h with h2
      exact ⟨[], by rw [← h2]; rfl⟩
    · split at h
      · exact Except.noConfusion h
      · split at h
        · exact Except.noConfusion h
        · split at h
          · exact Except.noConfusion h
          · split at h
            · exact run_daily_shape _ _ _ _ h
            · exact run_intraday_shape _ _ _ _ _ _ _ _ h

theorem padLevels_length (orders : List DepthLevelRaw) :
    (padLevels orders).length = 5 := by
  simp [padLevels]

/-- Indices beyond the broker-supplied levels are zero-padded. -/
theorem padLevels_pad (orders : List DepthLevelRaw) (i : Nat) (h5 : i < 5)
    (hlen : orders.length ≤ i) :
    (padLevels orders).get? i = some { price := 0, quantity := 0 } := by
  unfold padLevels
  rw [List.get?_map, List.get?_range h5, Option.map_some', List.get?_eq_none.mpr hlen]

/-- A string passing the `"not subscribed" in str(e).lower()` test is
non-empty. -/
theorem subscription_check_ne_empty (e : String)
    (h : subscription_check e = true) : e ≠ "" := by
  intro he
  subst he
  exact absurd h (by decide)

/-- The code-806 mapped message passes the subscription test, whatever the
broker put in the envelope's value. -/
theorem subscription_check_806 (m : String) :
    subscription_check (dhanErrorMsg (some ("806", m))) = true := by
  have h : dhanErrorMsg (some ("806", m)) =
      "Data APIs not subscribed. Please subscribe to Dhan" ++ squote ++
        "s market data service." := rfl
  rw [h]
  decide

/-- The code-820/821 mapped message fails the subscription test. -/
theorem subscription_check_820 (m : String) :
    subscription_check (dhanErrorMsg (some ("820", m))) = false := by
  have h : dhanErrorMsg (some ("820", m)) = "Market data subscription required" := rfl
  rw [h]
  decide

/-- C1: for every call to `get_history` that returns a result — any interval,
any token lookup, any broker replies — the returned series has rows strictly
ascending in timestamp with no duplicate timestamps, and always carries
exactly the declared columns `[timestamp, open, high, low, close, volume]`,
including when empty (the deduplication of line 322 keeps the first row of
each timestamp in sorted order; see `toSeries`). -/
theorem C1_history_sorted_unique_columns (client_id : Option String)
    (get_token : String → String → Option Int)
    (oracle : ChartRequest → BrokerReply ChartResponse)
    (symbol exchange interval : String) (start_date end_date : Int) (ser : Series)
    (h : (get_history client_id get_token oracle symbol exchange interval
        start_date end_date).2 = Except.ok ser) :
    ser.rows.Pairwise (fun a b => a.timestamp < b.timestamp) ∧
      ser.columns = historyColumns := by
  rcases get_history_ok_shape _ _ _ _ _ _ _ _ _ h with ⟨cs, rfl⟩
  exact ⟨toSeries_sorted cs, toSeries_columns cs⟩

/-- A broker oracle for concrete witnesses: every chart request succeeds with
the same three-row response whose timestamps arrive out of order and
duplicated. -/
def witnessChartOracle : ChartRequest → BrokerReply ChartResponse :=
  fun _ => BrokerReply.ok
    { timestamp := [100, 50, 50], open_ := [5, 6, 7], high := [1, 1, 1],
      low := [1, 1, 1], close := [1, 1, 1], volume := [10, 20, 30] }

/-- The series `witnessChartOracle` produces through the daily path. -/
def witnessSeries : Series :=
  { columns := historyColumns,
    rows := [{ timestamp := 19850, open_ := 6, high := 1, low := 1, close := 1, volume := 20 },
             { timestamp := 19900, open_ := 5, high := 1, low := 1, close := 1, volume := 10 }] }

/-- C1 witness: a concrete daily run over a duplicated, unordered broker
response hits the theorem's hypothesis and yields sorted unique rows. -/
theorem C1_witness :
    (get_history (some "client") (fun _ _ => some 100) witnessChartOracle
        "SBIN" "NSE" "D" 0 4).2 = Except.ok witnessSeries ∧
    (witnessSeries.rows.Pairwise (fun a b => a.timestamp < b.timestamp) ∧
      witnessSeries.columns = historyColumns) :=
  have hEval : (get_history (some "client") (fun _ _ => some 100) witnessChartOracle
      "SBIN" "NSE" "D" 0 4).2 = Except.ok witnessSeries := rfl
  ⟨hEval, C1_history_sorted_unique_columns (some "client") (fun _ _ => some 100)
    witnessChartOracle "SBIN" "NSE" "D" 0 4 witnessSeries hEval⟩

/-- C2: evidence against the claimed daily short-circuit.  The claim (and
lines 197-200 of the source, whose comment says a weekend-only range returns
an empty frame) requires that no broker request be sent; but `_adjust_dates`
runs first, so the guard compares already-adjusted (always weekday) dates
and can never fire.  On the weekend-only range Sat 1970-01-03 .. Sun
1970-01-04 with interval `D`, the code sends one daily request (with
`fromDate` after `toDate`) instead of short-circuiting.  The second conjunct
shows the guard is dead for every input. -/
theorem C2_weekend_daily_contacts_broker :
    get_history (some "client") (fun _ _ => some 100)
        (fun _ => BrokerReply.failed none) "SBIN" "NSE" "D" 2 3 =
      ([daily_request 100 "NSE_EQ" "EQUITY" 4 2],
        Except.error (wrapHist (dhanErrorMsg none))) ∧
    (∀ s e : Int,
      (!is_trading_day (adjust_dates s e).1 &&
        !is_trading_day (adjust_dates s e).2) = false) :=
  ⟨rfl, adjust_guard_false⟩

/-- C3: counterexample to "if all chunks fail, the overall call fails".  On
an intraday range producing exactly one chunk, with a broker that fails
every request, every chunk fails — yet the call returns the empty frame
successfully rather than failing. -/
theorem C3_counterexample :
    get_history (some "client") (fun _ _ => some 1)
        (fun _ => BrokerReply.failed none) "SBIN" "NSE" "1m" 0 4 =
      ([intraday_request 1 "NSE_EQ" "EQUITY" "1" (0, 4)],
        Except.ok { columns := historyColumns, rows := [] }) := rfl

/-- C3 (amended): for every sub-daily call that reaches the chunk loop, a
chunk failure is skipped and the remaining chunks are still fetched — the
request trace does not depend on the broker's replies at all — and the call
never fails due to chunk failures: it returns a successful (possibly empty)
series whatever the broker does, even when every chunk fails. -/
theorem C3_chunk_failures_skipped (client_id : Option String)
    (get_token : String → String → Option Int)
    (oracle oracle2 : ChartRequest → BrokerReply ChartResponse)
    (symbol exchange interval resolution : String) (start_date end_date : Int)
    (security_id : Int) (exchange_segment : String)
    (h1 : List.lookup interval timeframe_map = some resolution)
    (h2 : (interval == "D") = false)
    (h3 : get_token symbol exchange = some security_id)
    (h4 : ¬ security_id = 0)
    (h5 : List.lookup exchange exchange_map = some exchange_segment) :
    (∃ ser, (get_history client_id get_token oracle symbol exchange interval
        start_date end_date).2 = Except.ok ser) ∧
    (get_history client_id get_token oracle symbol exchange interval
        start_date end_date).1 =
      (get_history client_id get_token oracle2 symbol exchange interval
        start_date end_date).1 := by
  constructor
  · unfold get_history
    simp only [h1]
    rw [adjust_guard_false]
    simp only [Bool.false_eq_true, if_false, h3]
    rw [if_neg h4]
    simp only [h5, h2, Bool.false_eq_true, if_false]
    exact ⟨_, rfl⟩
  · unfold get_history
    simp only [h1]
    rw [adjust_guard_false]
    simp only [Bool.false_eq_true, if_false, h3]
    rw [if_neg h4]
    simp only [h5, h2, Bool.false_eq_true, if_false]
    unfold run_intraday
    rw [intraday_fold_trace, intraday_fold_trace]
    rw [if_neg h4]

/-- C3 witness: the amended theorem applied to a concrete one-chunk range
with an all-failing broker on one side and a succeeding broker on the
other. -/
theorem C3_witness :
    List.lookup "1m" timeframe_map = some "1" ∧
    ((∃ ser, (get_history (some "client") (fun _ _ => some 1)
        (fun _ => BrokerReply.failed none) "SBIN" "NSE" "1m" 0 4).2 =
          Except.ok ser) ∧
      (get_history (some "client") (fun _ _ => some 1)
          (fun _ => BrokerReply.failed none) "SBIN" "NSE" "1m" 0 4).1 =
        (get_history (some "client") (fun _ _ => some 1) witnessChartOracle
          "SBIN" "NSE" "1m" 0 4).1) :=
  ⟨rfl, C3_chunk_failures_skipped (some "client") (fun _ _ => some 1)
    (fun _ => BrokerReply.failed none) witnessChartOracle
    "SBIN" "NSE" "1m" "1" 0 4 1 "NSE_EQ" rfl rfl rfl (by decide) rfl⟩

/-- C4: counterexample to "codes 806, 820, 821 are all swallowed".  The
mapped message for code 820 is "Market data subscription required", which
does not contain "not subscribed", so the `except` filter of line 392 does
not catch it: `get_quotes` raises (here: returns the wrapped error) instead
of returning the zero quote. -/
theorem C4_counterexample :
    get_quotes (some "client") 1 "NSE_EQ"
        (BrokerReply.failed (some ("820", "error message"))) =
      Except.error ("Error fetching quotes: Market data subscription required") := rfl

/-- C4 (amended): a broker-reported failure is swallowed into the all-zero
result carrying a non-empty `error` string exactly when its mapped message
contains "not subscribed" — which the code-806 message does, whatever the
envelope's value — and every other broker-reported failure propagates as a
(wrapped) exception from both `get_quotes` and `get_depth`.  In particular
codes 820/821 ("Market data subscription required") propagate. -/
theorem C4_subscription_swallow (c : String) (security_id : Int)
    (exchange_type : String) (errorData : Option (String × String)) :
    (subscription_check (dhanErrorMsg errorData) = true →
      get_quotes (some c) security_id exchange_type (BrokerReply.failed errorData) =
        Except.ok { zeroQuote with error := some (dhanErrorMsg errorData) } ∧
      get_depth (some c) security_id exchange_type (BrokerReply.failed errorData) =
        Except.ok { zeroDepth with error := some (dhanErrorMsg errorData) } ∧
      dhanErrorMsg errorData ≠ "") ∧
    (subscription_check (dhanErrorMsg errorData) = false →
      get_quotes (some c) security_id exchange_type (BrokerReply.failed errorData) =
        Except.error (wrapQuotes (dhanErrorMsg errorData)) ∧
      get_depth (some c) security_id exchange_type (BrokerReply.failed errorData) =
        Except.error (wrapDepth (dhanErrorMsg errorData))) ∧
    (∀ m, subscription_check (dhanErrorMsg (some ("806", m))) = true) := by
  refine ⟨?_, ?_, subscription_check_806⟩
  · intro hsub
    refine ⟨?_, ?_, subscription_check_ne_empty _ hsub⟩
    · unfold get_quotes get_api_response
      simp only [hsub, if_true]
    · unfold get_depth get_api_response
      simp only [hsub, if_true]
  · intro hsub
    constructor
    · unfold get_quotes get_api_response
      simp only [hsub, Bool.false_eq_true, if_false]
    · unfold get_depth get_api_response
      simp only [hsub, Bool.false_eq_true, if_false]

/-- C4 witness: the amended theorem applied at code 806, the swallowed
case. -/
theorem C4_witness :
    subscription_check (dhanErrorMsg (some ("806", "error message"))) = true ∧
    get_quotes (some "client") 1 "NSE_EQ"
        (BrokerReply.failed (some ("806", "error message"))) =
      Except.ok { zeroQuote with
        error := some (dhanErrorMsg (some ("806", "error message"))) } :=
  have hs : subscription_check (dhanErrorMsg (some ("806", "error message"))) = true := by
    decide
  ⟨hs, ((C4_subscription_swallow "client" 1 "NSE_EQ"
    (some ("806", "error message"))).1 hs).1⟩

/-- C5: every depth returned by `get_depth` — whatever the broker supplies —
has exactly 5 bid levels and 5 ask levels, its aggregate buy/sell quantities
are the sums of the returned levels' quantities, and indices beyond the
broker-supplied levels are zero-padded. -/
theorem C5_depth_shape (client_id : Option String) (security_id : Int)
    (exchange_type : String) (reply : BrokerReply (Option QuoteData)) (d : Depth)
    (h : get_depth client_id security_id exchange_type reply = Except.ok d) :
    d.bids.length = 5 ∧ d.asks.length = 5 ∧
      d.totalbuyqty = (d.bids.map DepthLevel.quantity).sum ∧
      d.totalsellqty = (d.asks.map DepthLevel.quantity).sum ∧
      (∀ (orders : List DepthLevelRaw) (i : Nat), i < 5 → orders.length ≤ i →
        (padLevels orders).get? i = some { price := 0, quantity := 0 }) := by
  have hzero : zeroDepth.bids.length = 5 ∧ zeroDepth.asks.length = 5 ∧
      zeroDepth.totalbuyqty = (zeroDepth.bids.map DepthLevel.quantity).sum ∧
      zeroDepth.totalsellqty = (zeroDepth.asks.map DepthLevel.quantity).sum := by
    decide
  unfold get_depth at h
  split at h
  · split at h
    · injection h with h2
      rw [← h2]
      exact ⟨hzero.1, hzero.2.1, hzero.2.2.1, hzero.2.2.2,
        fun o i h5 hl => padLevels_pad o i h5 hl⟩
    · exact Except.noConfusion h
  · injection h with h2
    rw [← h2]
    exact ⟨hzero.1, hzero.2.1, hzero.2.2.1, hzero.2.2.2,
      fun o i h5 hl => padLevels_pad o i h5 hl⟩
  · injection h with h2
    rw [← h2]
    exact ⟨padLevels_length _, padLevels_length _, rfl, rfl,
      fun o i h5 hl => padLevels_pad o i h5 hl⟩

/-- The quote payload used by the C5 witness: three buy levels, no sell
levels. -/
def witnessQuoteData : QuoteData :=
  { last_price := 101, ohlc := { open_ := 10, high := 20, low := 5, close := 9 },
    volume := 1000, last_quantity := 7, oi := 3,
    depth := some { buy := [{ price := 100, quantity := 10 },
                            { price := 99, quantity := 20 },
                            { price := 98, quantity := 30 }],
                    sell := [] } }

/-- The depth `get_depth` builds from `witnessQuoteData`. -/
def witnessDepth : Depth :=
  { bids := [{ price := 100, quantity := 10 }, { price := 99, quantity := 20 },
             { price := 98, quantity := 30 }, { price := 0, quantity := 0 },
             { price := 0, quantity := 0 }],
    asks := [{ price := 0, quantity := 0 }, { price := 0, quantity := 0 },
             { price := 0, quantity := 0 }, { price := 0, quantity := 0 },
             { price := 0, quantity := 0 }],
    ltp := 101, ltq := 7, volume := 1000, open_ := 10, high := 20, low := 5,
    prev_close := 9, oi := 3, totalbuyqty := 60, totalsellqty := 0, error := none }

/-- C5 witness: a concrete `get_depth` run over a 3-level/0-level payload
hits the theorem's hypothesis; the result has the invariant shape. -/
theorem C5_witness :
    get_depth (some "client") 1 "NSE_EQ" (BrokerReply.ok (some witnessQuoteData)) =
      Except.ok witnessDepth ∧
    (witnessDepth.bids.length = 5 ∧ witnessDepth.asks.length = 5 ∧
      witnessDepth.totalbuyqty = (witnessDepth.bids.map DepthLevel.quantity).sum ∧
      witnessDepth.totalsellqty = (witnessDepth.asks.map DepthLevel.quantity).sum ∧
      (∀ (orders : List DepthLevelRaw) (i : Nat), i < 5 → orders.length ≤ i →
        (padLevels orders).get? i = some { price := 0, quantity := 0 })) :=
  have hEval : get_depth (some "client") 1 "NSE_EQ"
      (BrokerReply.ok (some witnessQuoteData)) = Except.ok witnessDepth := rfl
  ⟨hEval, C5_depth_shape (some "client") 1 "NSE_EQ"
    (BrokerReply.ok (some witnessQuoteData)) witnessDepth hEval⟩

/-- C6: for every adjusted date pair, the intraday chunking yields
consecutive inclusive sub-ranges, each spanning at least 1 and at most 5
days, all but the last spanning exactly 5; when the range is non-degenerate
the chunks start at its start and end at its end; and a 13-day range splits
into exactly 3 chunks of 5, 5 and 3 days. -/
theorem C6_chunking (s e : Int) :
    (∀ p ∈ get_intraday_chunks s e, 0 < p.2 - p.1 ∧ p.2 - p.1 ≤ 5) ∧
    List.Chain' (fun p q : Int × Int => p.2 = q.1) (get_intraday_chunks s e) ∧
    (∀ p ∈ (get_intraday_chunks s e).dropLast, p.2 - p.1 = 5) ∧
    (s < e → (get_intraday_chunks s e).head?.map Prod.fst = some s ∧
      (get_intraday_chunks s e).getLast?.map Prod.snd = some e) ∧
    get_intraday_chunks 0 13 = [(0, 5), (5, 10), (10, 13)] := by
  refine ⟨?_, chunks_go_chain _ _ _,
    fun p hp => chunks_go_dropLast _ _ _ p hp, ?_, by decide⟩
  · intro p hp
    have := chunks_go_mem _ _ _ p hp
    omega
  · intro hse
    refine ⟨?_, chunks_go_last _ _ _ hse (le_refl _)⟩
    rcases hh : get_intraday_chunks s e with _ | ⟨p, rest⟩
    · have hlast := chunks_go_last ((e - s).toNat) s e hse (le_refl _)
      rw [show get_intraday_chunks_go (e - s).toNat s e =
        get_intraday_chunks s e from rfl, hh] at hlast
      exact absurd hlast (by simp)
    · have hhead := chunks_go_head ((e - s).toNat) s e p rest hh
      rw [hhead.1]
      rfl

/-- C6 witness: the theorem applied to the 13-day range at its first
chunk. -/
theorem C6_witness :
    (0, 5) ∈ get_intraday_chunks 0 13 ∧
      (0 < ((0, 5) : Int × Int).2 - ((0, 5) : Int × Int).1 ∧
        ((0, 5) : Int × Int).2 - ((0, 5) : Int × Int).1 ≤ 5) :=
  ⟨by decide, (C6_chunking 0 13).1 (0, 5) (by decide)⟩

/-- C7: for every interval token with no entry in the timeframe map, every
call to `get_history` — whatever the dates, the token lookup and the broker
— returns the unsupported-interval error with an empty request trace (so
nothing was adjusted, resolved or requested), and the message names the
full supported set. -/
theorem C7_unsupported_interval (client_id : Option String)
    (get_token : String → String → Option Int)
    (oracle : ChartRequest → BrokerReply ChartResponse)
    (symbol exchange interval : String) (start_date end_date : Int)
    (h : List.lookup interval timeframe_map = none) :
    get_history client_id get_token oracle symbol exchange interval
        start_date end_date =
      ([], Except.error ("Error fetching historical data: " ++
        unsupportedIntervalMsg interval)) ∧
    unsupportedIntervalMsg interval =
      ("Unsupported interval " ++ squote ++ interval ++ squote ++
        ". Supported intervals are: ") ++ "1m, 5m, 15m, 25m, 1h, D" := by
  constructor
  · unfold get_history
    rw [h]
    rfl
  · rfl

/-- C7 witness: the theorem applied to the token `3m`. -/
theorem C7_witness :
    List.lookup "3m" timeframe_map = none ∧
    get_history (some "client") (fun _ _ => some 100) witnessChartOracle
        "SBIN" "NSE" "3m" 0 4 =
      ([], Except.error ("Error fetching historical data: " ++
        unsupportedIntervalMsg "3m")) :=
  ⟨rfl, (C7_unsupported_interval (some "client") (fun _ _ => some 100)
    witnessChartOracle "SBIN" "NSE" "3m" 0 4 rfl).1⟩

/-- C8: the date-to-UTC helper always yields the same calendar date as its
input (the 15:30 anchor minus the 5:30 offset stays at 10:00 of the same
day), and adding the fixed offset back to the converted datetime reproduces
the original calendar date. -/
theorem C8_date_utc_roundtrip (d : Int) :
    convert_date_to_utc d = d ∧
      dateOfMinutes (convert_date_to_utc_minutes d + (5 * 60 + 30)) = d := by
  unfold convert_date_to_utc dateOfMinutes convert_date_to_utc_minutes
  omega

/-- C9: both dates returned by `_adjust_dates` fall on weekdays, and for an
input range lying entirely within one weekend (both dates on a weekend, at
most one day apart) the adjusted start is strictly later than the adjusted
end. -/
theorem C9_adjusted_weekday (s e : Int) :
    is_trading_day (adjust_dates s e).1 = true ∧
    is_trading_day (adjust_dates s e).2 = true ∧
    (5 ≤ weekday s → 5 ≤ weekday e → s ≤ e → e ≤ s + 1 →
      (adjust_dates s e).2 < (adjust_dates s e).1) := by
  refine ⟨adjust_start_trading s, adjust_end_trading e, ?_⟩
  intro hs he hle hone
  show adjust_end_go 7 e < adjust_start_go 7 s
  rw [adjust_start_eq s, adjust_end_eq e]
  unfold weekday at *
  split_ifs <;> omega

/-- C9 witness: the theorem applied to the weekend Sat 1970-01-03 .. Sun
1970-01-04. -/
theorem C9_witness :
    is_trading_day (adjust_dates 2 3).1 = true ∧
      (adjust_dates 2 3).2 < (adjust_dates 2 3).1 :=
  ⟨(C9_adjusted_weekday 2 3).1,
    (C9_adjusted_weekday 2 3).2.2 (by decide) (by decide) (by decide) (by decide)⟩

/-- C10: the chunking of a degenerate range is empty, so a sub-daily
`get_history` call whose adjusted start equals its adjusted end (one
trading day) returns the empty frame with the declared columns and issues
no broker request at all. -/
theorem C10_single_day_empty (client_id : Option String)
    (get_token : String → String → Option Int)
    (oracle : ChartRequest → BrokerReply ChartResponse)
    (symbol exchange interval resolution : String) (start_date end_date : Int)
    (security_id : Int) (exchange_segment : String)
    (h1 : List.lookup interval timeframe_map = some resolution)
    (h2 : (interval == "D") = false)
    (h3 : get_token symbol exchange = some security_id)
    (h4 : ¬ security_id = 0)
    (h5 : List.lookup exchange exchange_map = some exchange_segment)
    (h6 : (adjust_dates start_date end_date).1 = (adjust_dates start_date end_date).2) :
    (∀ a : Int, get_intraday_chunks a a = []) ∧
    get_history client_id get_token oracle symbol exchange interval
        start_date end_date =
      ([], Except.ok { columns := historyColumns, rows := [] }) := by
  have hempty : ∀ a : Int, get_intraday_chunks a a = [] := by
    intro a
    unfold get_intraday_chunks
    rw [show (a - a).toNat = 0 by omega]
    rfl
  refine ⟨hempty, ?_⟩
  unfold get_history
  simp only [h1]
  rw [adjust_guard_false]
  simp only [Bool.false_eq_true, if_false, h3]
  rw [if_neg h4]
  simp only [h5, h2, Bool.false_eq_true, if_false]
  rw [h6, hempty]
  rfl

/-- C10 witness: the theorem applied to the single trading day Thu
1970-01-01. -/
theorem C10_witness :
    (adjust_dates 0 0).1 = (adjust_dates 0 0).2 ∧
    get_history (some "client") (fun _ _ => some 1)
        (fun _ => BrokerReply.failed none) "SBIN" "NSE" "1m" 0 0 =
      ([], Except.ok { columns := historyColumns, rows := [] }) :=
  ⟨rfl, (C10_single_day_empty (some "client") (fun _ _ => some 1)
    (fun _ => BrokerReply.failed none) "SBIN" "NSE" "1m" "1" 0 0 1 "NSE_EQ"
    rfl rfl rfl (by decide) rfl rfl).2⟩
